import Mathlib

/-!
Verification of the resilient object-storage client and its metadata index
(`src/document_storage/document_storage.py`, `src/document_storage/tender_storage.py`)
against the design specification.

The Python code is shallowly embedded: JSON values become an inductive type,
the S3 bucket and the local working directory become association lists from
string keys to contents, stateful methods become explicit state-passing
functions, and Python exceptions become `Option`-tagged error outcomes.
Logging calls, content-type tagging and network details have no effect on
the stored contents and are omitted.
-/

namespace TenderScraper

/-- JSON values, as produced by Python's `json` module.  `num` covers the
numeric payloads used by the storage layer (the `updated_at` timestamp is
abstracted to an integer tick). -/
inductive Json where
  | null : Json
  | bool (b : Bool) : Json
  | num (n : Int) : Json
  | str (s : String) : Json
  | arr (xs : List Json) : Json
  | obj (kvs : List (String × Json)) : Json

/-- Lookup in a Python dict modelled as an insertion-ordered association
list: the value of the first matching key. -/
def assocLookup {α : Type} : List (String × α) → String → Option α
  | [], _ => none
  | (k, v) :: rest, key => if k = key then some v else assocLookup rest key

/-- Python dict assignment `d[k] = v`: replace the value in place when the
key is present, otherwise append the pair at the end. -/
def assocSet {α : Type} : List (String × α) → String → α → List (String × α)
  | [], key, v => [(key, v)]
  | (k, w) :: rest, key, v =>
    if k = key then (k, v) :: rest else (k, w) :: assocSet rest key v

/-- Python `d.get(k)` on a JSON object: `some` of the value, or `none`
(Python `None`) when the key is missing.  All call sites in the modelled
flows apply it to dicts. -/
def Json.get : Json → String → Option Json
  | .obj kvs, k => assocLookup kvs k
  | _, _ => none

/-- Python equality `==` restricted to scalar JSON values.  The modelled
flows only ever compare scalar ids; deep container equality is not
exercised and yields `false` here. -/
def Json.scalarEq : Json → Json → Bool
  | .null, .null => true
  | .bool a, .bool b => a == b
  | .num a, .num b => a == b
  | .str a, .str b => a == b
  | _, _ => false

/-- Python membership `needle in j`.  For a dict (whose keys, coming from
`json.load`, are strings) this is key membership; for a list it is element
membership; on other values Python raises `TypeError`, modelled as `none`. -/
def Json.member (needle : Json) : Json → Option Bool
  | .obj kvs =>
    some (match needle with
      | .str s => (assocLookup kvs s).isSome
      | _ => false)
  | .arr xs => some (xs.any needle.scalarEq)
  | _ => none

/-- Python f-string interpolation `f"{x}"` of the values that occur as
tender ids in the modelled flows (`None` and scalars; containers are not
exercised as ids). -/
def pyStr : Option Json → String
  | none => "None"
  | some .null => "None"
  | some (.bool true) => "True"
  | some (.bool false) => "False"
  | some (.num n) => toString n
  | some (.str s) => s
  | some (.arr _) => "<list>"
  | some (.obj _) => "<dict>"

/-! ## Transfer planning (`_get_multipart_config`) -/

/-- `MULTIPART_THRESHOLD = 100 * 1024 * 1024` (100 MiB). -/
def MULTIPART_THRESHOLD : Nat := 100 * 1024 * 1024

/-- `MULTIPART_CHUNKSIZE = 10 * 1024 * 1024` (10 MiB). -/
def MULTIPART_CHUNKSIZE : Nat := 10 * 1024 * 1024

/-- `MAX_CONCURRENCY = 10`. -/
def MAX_CONCURRENCY : Nat := 10

/-- `math.ceil(a / b)` for the integer operands used by the planner (the
float division is exact for every size at which the quotient is not
clamped away). -/
def ceilDiv (a b : Nat) : Nat := (a + b - 1) / b

/-- The transfer configuration dictionary built by `_get_multipart_config`
(the `boto3` `TransferConfig` keyword set). -/
structure TransferConfig where
  multipart_threshold : Nat
  multipart_chunksize : Nat
  max_concurrency : Nat
  use_threads : Bool
deriving DecidableEq

/-- `S3DocumentStorage._get_multipart_config`: base configuration, with the
chunk size optimized when the file size is known, truthy, and above the
multipart threshold (`if file_size and file_size > MULTIPART_THRESHOLD`). -/
def get_multipart_config (file_size : Option Nat) : TransferConfig :=
  let base : TransferConfig :=
    { multipart_threshold := MULTIPART_THRESHOLD
      multipart_chunksize := MULTIPART_CHUNKSIZE
      max_concurrency := MAX_CONCURRENCY
      use_threads := true }
  match file_size with
  | none => base
  | some s =>
    if s ≠ 0 ∧ MULTIPART_THRESHOLD < s then
      let calculated_chunk_size := ceilDiv s 10
      let chunk_size :=
        max (min calculated_chunk_size (100 * 1024 * 1024)) MULTIPART_CHUNKSIZE
      let chunk_size := ceilDiv chunk_size (1024 * 1024) * (1024 * 1024)
      { base with multipart_chunksize := chunk_size }
    else base

/-- Modelled from the spec: which transfers engage multipart.  The decision
itself lives inside the `boto3` transfer manager, outside this repository;
the spec fixes its semantics as "multipart is used only when object size
exceeds a 100 MiB threshold" and "if size is unknown or below the multipart
threshold (100 MiB), use single-shot transfer". -/
def use_multipart (file_size : Option Nat) : Bool :=
  match file_size with
  | none => false
  | some s => decide ((get_multipart_config (some s)).multipart_threshold < s)

/-! ## Retry wrapper (`retry_s3_operation`) -/

/-- The exceptions distinguished by the retry wrapper: `botocore`
`ClientError`s, carrying an error code, and everything else. -/
inductive PyExc where
  | clientError (code : String) : PyExc
  | otherError : PyExc
deriving DecidableEq

/-- Outcome of one invocation of a wrapped operation. -/
inductive OpResult (α : Type) where
  | ok (a : α) : OpResult α
  | exc (e : PyExc) : OpResult α
deriving DecidableEq

/-- The wrapper's own classification, from
`if error_codes and error_code not in error_codes: raise`: with no
allow-list — including the falsy empty list — every `ClientError` is
retried; with a non-empty allow-list only listed codes are. -/
def retryableCode (error_codes : Option (List String)) (code : String) : Bool :=
  match error_codes with
  | none => true
  | some l => l.isEmpty || l.contains code

/-- The retry loop of `retry_s3_operation`.  `fuel` is the number of
retries still allowed (`max_retries - retries`), `attempt` the number of
invocations already made; the operation is an oracle from the invocation
index to its outcome.  Returns the final outcome together with the total
number of invocations.  With no fuel left a `ClientError` propagates
whether or not it is retryable, exactly as `retries > max_retries` fires in
the source right after the allow-list check, with the same outcome. -/
def retryGo {α : Type} (op : Nat → OpResult α) (error_codes : Option (List String)) :
    Nat → Nat → OpResult α × Nat
  | 0, attempt =>
    match op attempt with
    | .ok a => (.ok a, attempt + 1)
    | .exc .otherError => (.exc .otherError, attempt + 1)
    | .exc (.clientError c) => (.exc (.clientError c), attempt + 1)
  | fuel + 1, attempt =>
    match op attempt with
    | .ok a => (.ok a, attempt + 1)
    | .exc .otherError => (.exc .otherError, attempt + 1)
    | .exc (.clientError c) =>
      if retryableCode error_codes c then retryGo op error_codes fuel (attempt + 1)
      else (.exc (.clientError c), attempt + 1)

/-- `retry_s3_operation(max_retries, backoff_factor, error_codes)` applied
to an operation: run it, retrying retryable `ClientError`s up to
`max_retries` times (the backoff delay affects timing only, not the
result, and is omitted). -/
def retry_s3_operation {α : Type} (max_retries : Nat)
    (error_codes : Option (List String)) (op : Nat → OpResult α) :
    OpResult α × Nat :=
  retryGo op error_codes max_retries 0

/-- One invocation of the body of `S3DocumentStorage.upload_file`: the body
wraps the whole transfer in `try: ... except Exception: return False`, so a
raising transfer is converted into the return value `False` and no
exception escapes to the decorator. -/
def upload_file_attempt (transfer : Nat → OpResult Unit) (attempt : Nat) :
    OpResult Bool :=
  match transfer attempt with
  | .ok _ => .ok true
  | .exc _ => .ok false

/-- The allow-list the decorator on `upload_file` is configured with. -/
def UPLOAD_RETRY_CODES : List String :=
  ["RequestTimeout", "ConnectionError", "InternalError"]

/-- `upload_file` as actually composed in the source:
`@retry_s3_operation(max_retries=3, error_codes=[...])` around the
all-catching body. -/
def upload_file_with_retry (transfer : Nat → OpResult Unit) :
    OpResult Bool × Nat :=
  retry_s3_operation 3 (some UPLOAD_RETRY_CODES) (upload_file_attempt transfer)

/-! ## Object store and local filesystem state -/

/-- Stored contents: either a JSON document (what `json.dump` wrote) or an
opaque byte blob (an arbitrary document file). -/
inductive Content where
  | jsonC (j : Json) : Content
  | bytes (b : String) : Content

/-- The state the storage layer acts on: the bucket's objects, the local
working directory's files (both key-to-content maps), and the clock read by
`time.time()`. -/
structure StorageState where
  bucket : List (String × Content)
  localFs : List (String × Content)
  now : Int

/-- `S3DocumentStorage.file_exists`: a `head_object` probe, `true` exactly
when the key is present (absence and genuine errors both yield `false`; the
model has no genuine errors). -/
def file_exists (st : StorageState) (key : String) : Bool :=
  (assocLookup st.bucket key).isSome

/-- `S3DocumentStorage.upload_file` on the success path of the store: read
the local file and overwrite the object at `s3_key`; a missing local file
makes the body return `False` with no state change (the `except` clause). -/
def upload_file (st : StorageState) (file_path s3_key : String) :
    Bool × StorageState :=
  match assocLookup st.localFs file_path with
  | some c => (true, { st with bucket := assocSet st.bucket s3_key c })
  | none => (false, st)

/-- `S3DocumentStorage.download_file`: existence check first, then stream
the object into the local file (no partial file is written when the key is
absent). -/
def download_file (st : StorageState) (s3_key local_path : String) :
    Bool × StorageState :=
  match assocLookup st.bucket s3_key with
  | some c => (true, { st with localFs := assocSet st.localFs local_path c })
  | none => (false, st)

/-- The empty index document `get_bucket_info` constructs when the
well-known key is absent: note the group collection is an empty JSON *list*
under the key `"tender_id"`. -/
def emptyIndex (bucket_name : String) (t : Int) : Json :=
  .obj [("bucket", .str bucket_name), ("updated_at", .num t),
        ("tender_id", .arr [])]

/-- `S3DocumentStorage.get_bucket_info`: if `bucket_metadata.json` is
absent, write the fresh empty index to the local file of that name, upload
it, and return it; otherwise download the stored object to that local file,
`json.load` it, and return it.  `none` models a raised exception (download
failure or invalid JSON).  The client itself is just its bucket name. -/
def get_bucket_info (bucket_name : String) (st : StorageState) :
    Option (Json × StorageState) :=
  if file_exists st "bucket_metadata.json" then
    let (_ok, st) := download_file st "bucket_metadata.json" "bucket_metadata.json"
    match assocLookup st.localFs "bucket_metadata.json" with
    | some (.jsonC j) => some (j, st)
    | _ => none
  else
    let metadata := emptyIndex bucket_name st.now
    let st := { st with
      localFs := assocSet st.localFs "bucket_metadata.json" (.jsonC metadata) }
    let (_ok, st) := upload_file st "bucket_metadata.json" "bucket_metadata.json"
    some (metadata, st)

/-- `S3DocumentStorage.update_metadata`: `json.dump` the document to the
local file `bucket_metadata.json`, upload it to the key of the same name,
and return `True` (the upload's own boolean is ignored by the source). -/
def update_metadata (st : StorageState) (metadata : Json) :
    Bool × StorageState :=
  let st := { st with
    localFs := assocSet st.localFs "bucket_metadata.json" (.jsonC metadata) }
  let (_ok, st) := upload_file st "bucket_metadata.json" "bucket_metadata.json"
  (true, st)

/-! ## `TenderStorage` -/

/-- Python exceptions raised by the `TenderStorage` flows. -/
inductive PyErr where
  | keyError : PyErr
  | typeError : PyErr
  | valueError : PyErr
deriving DecidableEq

/-- `TenderStorage`: holds the cached index document `self.bucket_info`. -/
structure TenderStorage where
  cached : Json

/-- The `TenderStorage` constructor: load (or create) the index and cache
it. -/
def TenderStorage.mkInit (bucket_name : String) (st : StorageState) :
    Option (TenderStorage × StorageState) :=
  (get_bucket_info bucket_name st).map (fun p => (⟨p.1⟩, p.2))

/-- Python `str.split(sep)` for a one-character separator, on the character
list of the string: `"".split -> [""]`, `"a/" -> ["a", ""]`, exactly as in
Python. -/
def splitOnChar (c : Char) : List Char → List (List Char)
  | [] => [[]]
  | x :: xs =>
    let rest := splitOnChar c xs
    if x = c then [] :: rest
    else match rest with
      | [] => [[x]]
      | r :: rs => (x :: r) :: rs

/-- `str(document_path).split('/')[-1]` (the list returned by `split` is
never empty, so the `[-1]` index never fails). -/
def basename (p : String) : String :=
  ⟨(splitOnChar '/' p.data).getLastD []⟩

/-- The upload loop of `upload_new_tender`: each document goes to
`{data.get('id')}/{basename}`. -/
def uploadTenderDocs (st : StorageState) (idStr : String) :
    List String → StorageState
  | [] => st
  | p :: rest =>
    uploadTenderDocs (upload_file st p (idStr ++ "/" ++ basename p)).2 idStr rest

/-- The upload loop of `add_to_tender`: each document goes to
`{tender_id}/documents/{basename}`. -/
def uploadAddDocs (st : StorageState) (tender_id : String) :
    List String → StorageState
  | [] => st
  | p :: rest =>
    uploadAddDocs
      (upload_file st p (tender_id ++ "/documents/" ++ basename p)).2
      tender_id rest

/-- `TenderStorage.upload_new_tender`: upload every document, re-fetch the
index (binding the result to an unused local), then — reading the *cached*
copy — insert a fresh group record only when `data.get('id')` is not
already a member of `bucket_info["tender_id"]`, save, and refresh the
cache.  Errors (`Option PyErr`) model the Python exceptions raised at the
corresponding subscript or membership step; the state returned alongside an
error is the state at the raise point. -/
def upload_new_tender (bucket_name : String) (ts : TenderStorage)
    (st : StorageState) (data : Json) (document_paths : List String)
    (publication : Bool) : (TenderStorage × StorageState) × Option PyErr :=
  let idJ := data.get "id"
  let idStr := pyStr idJ
  let st := uploadTenderDocs st idStr document_paths
  match get_bucket_info bucket_name st with
  | none => ((ts, st), some .valueError)
  | some (_metadata, st) =>
    match ts.cached with
    | .obj kvs =>
      match assocLookup kvs "tender_id" with
      | none => ((ts, st), some .typeError)
      | some tender_ids =>
        match Json.member (idJ.getD .null) tender_ids with
        | none => ((ts, st), some .typeError)
        | some mem =>
          if mem then ((ts, st), none)
          else
            match tender_ids with
            | .obj tmap =>
              match idJ with
              | some (.str idKey) =>
                let record : Json :=
                  .obj [("publication", .bool publication),
                        ("documents", .bool false), ("data", data)]
                let tmap' := assocSet tmap idKey record
                let cached' := Json.obj (assocSet kvs "tender_id" (.obj tmap'))
                let (_ok, st) := update_metadata st cached'
                match get_bucket_info bucket_name st with
                | none => ((⟨cached'⟩, st), some .valueError)
                | some (md, st) => ((⟨md⟩, st), none)
              | _ => ((ts, st), some .typeError)
            | _ => ((ts, st), some .typeError)
    | _ => ((ts, st), some .typeError)

/-- `TenderStorage.add_to_tender`: upload every document first, then run
`data["tender_id"][tender_id]["documents"] = True` on the cached index —
raising `KeyError` when `tender_id` (or the `"tender_id"` key itself) is
absent, `TypeError` when a subscripted value is not a dict — and finally
save the mutated index.  The state returned alongside an error is the state
at the raise point: the uploads have already happened. -/
def add_to_tender (ts : TenderStorage) (st : StorageState)
    (tender_id : String) (document_paths : List String) :
    (TenderStorage × StorageState) × Option PyErr :=
  let st := uploadAddDocs st tender_id document_paths
  match ts.cached with
  | .obj kvs =>
    match assocLookup kvs "tender_id" with
    | none => ((ts, st), some .keyError)
    | some (.obj tmap) =>
      match assocLookup tmap tender_id with
      | none => ((ts, st), some .keyError)
      | some (.obj rkvs) =>
        let record' := Json.obj (assocSet rkvs "documents" (.bool true))
        let tmap' := assocSet tmap tender_id record'
        let cached' := Json.obj (assocSet kvs "tender_id" (.obj tmap'))
        let (_ok, st) := update_metadata st cached'
        ((⟨cached'⟩, st), none)
      | some _ => ((ts, st), some .typeError)
    | some _ => ((ts, st), some .typeError)
  | _ => ((ts, st), some .typeError)

/-! ## Helper lemmas -/

theorem assocLookup_set_self {α : Type} (m : List (String × α)) (k : String) (v : α) :
    assocLookup (assocSet m k v) k = some v := by
  induction m with
  | nil => simp [assocSet, assocLookup]
  | cons hd tl ih =>
    obtain ⟨k', v'⟩ := hd
    by_cases h : k' = k <;> simp [assocSet, assocLookup, h, ih]

theorem assocLookup_set_ne {α : Type} (m : List (String × α)) (k k' : String)
    (v : α) (h : k ≠ k') :
    assocLookup (assocSet m k v) k' = assocLookup m k' := by
  induction m with
  | nil => simp [assocSet, assocLookup, h]
  | cons hd tl ih =>
    obtain ⟨k₀, v₀⟩ := hd
    by_cases hk : k₀ = k
    · subst hk
      simp [assocSet, assocLookup, h]
    · simp [assocSet, assocLookup, hk, ih]

theorem string_data_append (s t : String) : (s ++ t).data = s.data ++ t.data := by
  cases s
  cases t
  rfl

theorem ne_meta_of_slash_mem (s : String) (h : '/' ∈ s.data) :
    s ≠ "bucket_metadata.json" := by
  intro he
  rw [he] at h
  exact absurd h (by decide)

theorem slash_key_ne_meta (a b : String) :
    a ++ "/" ++ b ≠ "bucket_metadata.json" := by
  apply ne_meta_of_slash_mem
  rw [string_data_append, string_data_append]
  have h1 : '/' ∈ ("/" : String).data := by decide
  simp only [List.mem_append]
  exact Or.inl (Or.inr h1)

theorem documents_key_ne_meta (a b : String) :
    a ++ "/documents/" ++ b ≠ "bucket_metadata.json" := by
  apply ne_meta_of_slash_mem
  rw [string_data_append, string_data_append]
  have h1 : '/' ∈ ("/documents/" : String).data := by decide
  simp only [List.mem_append]
  exact Or.inl (Or.inr h1)

theorem upload_file_snd_localFs (st : StorageState) (p k : String) :
    ((upload_file st p k).2).localFs = st.localFs := by
  unfold upload_file
  cases assocLookup st.localFs p <;> rfl

theorem upload_file_snd_bucket_ne (st : StorageState) (p k k' : String)
    (h : k ≠ k') :
    assocLookup ((upload_file st p k).2).bucket k' = assocLookup st.bucket k' := by
  unfold upload_file
  cases assocLookup st.localFs p with
  | none => rfl
  | some c => simp [assocLookup_set_ne _ _ _ _ h]

theorem upload_file_after_localSet (st : StorageState) (k : String) (c : Content) :
    upload_file { st with localFs := assocSet st.localFs k c } k k =
      (true, { st with localFs := assocSet st.localFs k c,
                       bucket := assocSet st.bucket k c }) := by
  simp only [upload_file, assocLookup_set_self]

theorem uploadTenderDocs_localFs (i : String) (ps : List String) :
    ∀ st : StorageState, (uploadTenderDocs st i ps).localFs = st.localFs := by
  induction ps with
  | nil => intro st; rfl
  | cons p rest ih =>
    intro st
    simp only [uploadTenderDocs]
    rw [ih, upload_file_snd_localFs]

theorem uploadTenderDocs_meta (i : String) (ps : List String) :
    ∀ st : StorageState,
      assocLookup (uploadTenderDocs st i ps).bucket "bucket_metadata.json" =
        assocLookup st.bucket "bucket_metadata.json" := by
  induction ps with
  | nil => intro st; rfl
  | cons p rest ih =>
    intro st
    simp only [uploadTenderDocs]
    rw [ih, upload_file_snd_bucket_ne]
    exact slash_key_ne_meta i (basename p)

theorem uploadAddDocs_meta (t : String) (ps : List String) :
    ∀ st : StorageState,
      assocLookup (uploadAddDocs st t ps).bucket "bucket_metadata.json" =
        assocLookup st.bucket "bucket_metadata.json" := by
  induction ps with
  | nil => intro st; rfl
  | cons p rest ih =>
    intro st
    simp only [uploadAddDocs]
    rw [ih, upload_file_snd_bucket_ne]
    exact documents_key_ne_meta t (basename p)

theorem get_bucket_info_absent (b : String) (st : StorageState)
    (habs : assocLookup st.bucket "bucket_metadata.json" = none) :
    get_bucket_info b st =
      some (emptyIndex b st.now,
        { st with
          localFs := assocSet st.localFs "bucket_metadata.json"
            (.jsonC (emptyIndex b st.now)),
          bucket := assocSet st.bucket "bucket_metadata.json"
            (.jsonC (emptyIndex b st.now)) }) := by
  have hex : file_exists st "bucket_metadata.json" = false := by
    simp [file_exists, habs]
  simp [get_bucket_info, hex, upload_file_after_localSet]

theorem get_bucket_info_present (b : String) (st : StorageState) (j : Json)
    (hpres : assocLookup st.bucket "bucket_metadata.json" = some (.jsonC j)) :
    get_bucket_info b st =
      some (j, { st with
        localFs := assocSet st.localFs "bucket_metadata.json" (.jsonC j) }) := by
  have hex : file_exists st "bucket_metadata.json" = true := by
    simp [file_exists, hpres]
  simp [get_bucket_info, hex, download_file, hpres, assocLookup_set_self]

theorem get_bucket_info_bytes (b : String) (st : StorageState) (bb : String)
    (hpres : assocLookup st.bucket "bucket_metadata.json" = some (.bytes bb)) :
    get_bucket_info b st = none := by
  have hex : file_exists st "bucket_metadata.json" = true := by
    simp [file_exists, hpres]
  simp [get_bucket_info, hex, download_file, hpres, assocLookup_set_self]

theorem update_metadata_eq (st : StorageState) (metadata : Json) :
    update_metadata st metadata =
      (true, { st with
        localFs := assocSet st.localFs "bucket_metadata.json" (.jsonC metadata),
        bucket := assocSet st.bucket "bucket_metadata.json" (.jsonC metadata) }) := by
  simp [update_metadata, upload_file_after_localSet]

/-- The wrapper's classification split by exception kind: the first
`except` clause handles `ClientError`s through the allow-list check, the
second propagates everything else unconditionally. -/
def shouldRetryExc (error_codes : Option (List String)) : PyExc → Bool
  | .clientError c => retryableCode error_codes c
  | .otherError => false

theorem retryGo_count_ge {α : Type} (op : Nat → OpResult α)
    (codes : Option (List String)) :
    ∀ fuel attempt, attempt + 1 ≤ (retryGo op codes fuel attempt).2 := by
  intro fuel
  induction fuel with
  | zero =>
    intro attempt
    simp only [retryGo]
    cases op attempt with
    | ok a => exact Nat.le_refl _
    | exc e => cases e <;> exact Nat.le_refl _
  | succ f ih =>
    intro attempt
    simp only [retryGo]
    cases op attempt with
    | ok a => exact Nat.le_refl _
    | exc e =>
      cases e with
      | otherError => exact Nat.le_refl _
      | clientError c =>
        cases hr : retryableCode codes c with
        | true =>
          simp only [hr, if_true]
          exact Nat.le_trans (Nat.le_succ _) (ih (attempt + 1))
        | false => simp [hr]

theorem retryGo_succ_retry {α : Type} (op : Nat → OpResult α)
    (codes : Option (List String)) (c : String) (fuel attempt : Nat)
    (h : op attempt = .exc (.clientError c))
    (hr : retryableCode codes c = true) :
    retryGo op codes (fuel + 1) attempt = retryGo op codes fuel (attempt + 1) := by
  simp only [retryGo, h, hr, if_true]

/-! ## Claims about the retry wrapper -/

/-- C3 (corrected), counterexample: with no allow-list supplied, a
`ClientError` carrying the non-transient code `AccessDenied` is retried —
the wrapper invokes the operation 4 times, not once, contradicting
"in every other case (including a non-transient error code with no
allow-list supplied) the error propagates on the first occurrence without
consuming a retry". -/
theorem retry_nontransient_retried_counterexample :
    retry_s3_operation 3 none
        (fun _ => OpResult.exc (α := Unit) (PyExc.clientError "AccessDenied")) =
      (OpResult.exc (PyExc.clientError "AccessDenied"), 4) ∧
    (retry_s3_operation 3 none
        (fun _ => OpResult.exc (α := Unit) (PyExc.clientError "AccessDenied"))).2 ≠ 1 := by
  constructor
  · rfl
  · decide

/-- C3 (amended): the wrapper classifies only by exception kind and
allow-list membership — a first failure that is not a `ClientError`, or is
a `ClientError` whose code is outside a supplied non-empty allow-list,
propagates after exactly one invocation without consuming a retry; a first
failure that is a `ClientError` and either no allow-list was supplied (or
it is empty, which Python treats as falsy) or the code is listed, is
retried, so a second invocation occurs. -/
theorem retry_first_error_classification {α : Type} (op : Nat → OpResult α)
    (codes : Option (List String)) (e : PyExc) (h0 : op 0 = .exc e) :
    (shouldRetryExc codes e = false →
      retry_s3_operation 3 codes op = (.exc e, 1)) ∧
    (shouldRetryExc codes e = true →
      2 ≤ (retry_s3_operation 3 codes op).2) := by
  constructor
  · intro hf
    cases e with
    | otherError => simp [retry_s3_operation, retryGo, h0]
    | clientError c =>
      have hrc : retryableCode codes c = false := hf
      simp [retry_s3_operation, retryGo, h0, hrc]
  · intro ht
    cases e with
    | otherError => simp [shouldRetryExc] at ht
    | clientError c =>
      have hrc : retryableCode codes c = true := ht
      have h1 : retry_s3_operation 3 codes op = retryGo op codes 2 1 :=
        retryGo_succ_retry op codes c 2 0 h0 hrc
      rw [h1]
      exact retryGo_count_ge op codes 2 1

/-- C3 witness: an out-of-list `ClientError` code propagates after a single
invocation. -/
theorem retry_first_error_classification_witness :
    retry_s3_operation 3 (some ["RequestTimeout"])
        (fun _ => OpResult.exc (α := Unit) (PyExc.clientError "NoSuchKey")) =
      (OpResult.exc (PyExc.clientError "NoSuchKey"), 1) :=
  (retry_first_error_classification
      (fun _ => OpResult.exc (PyExc.clientError "NoSuchKey"))
      (some ["RequestTimeout"]) (PyExc.clientError "NoSuchKey") rfl).1 (by decide)

/-- C6: with `max_retries = 3`, an operation that raises a retryable
transient error on every invocation is invoked exactly 4 times (1 initial
attempt plus 3 retries) and the last error then propagates. -/
theorem retry_exhausts_after_four_invocations {α : Type}
    (codes : Option (List String)) (c : String)
    (h : retryableCode codes c = true) :
    retry_s3_operation 3 codes
        (fun _ => OpResult.exc (α := α) (PyExc.clientError c)) =
      (OpResult.exc (PyExc.clientError c), 4) := by
  simp [retry_s3_operation, retryGo, h]

/-- C6 witness: an always-`RequestTimeout` operation under an allow-list
containing that code runs 4 times and then fails. -/
theorem retry_exhausts_after_four_invocations_witness :
    retry_s3_operation 3 (some ["RequestTimeout"])
        (fun _ => OpResult.exc (α := Unit) (PyExc.clientError "RequestTimeout")) =
      (OpResult.exc (PyExc.clientError "RequestTimeout"), 4) :=
  retry_exhausts_after_four_invocations (some ["RequestTimeout"])
    "RequestTimeout" (by decide)

/-- C4 (code bug evidence): in the source, `upload_file`'s body converts
every exception — including a transient `RequestTimeout` `ClientError`
raised by the transfer — into the return value `False`, so the surrounding
retry decorator sees a normal return and performs exactly one invocation:
the configured 3-retry budget is never used. -/
theorem upload_file_retry_is_dead :
    upload_file_with_retry
        (fun _ => OpResult.exc (PyExc.clientError "RequestTimeout")) =
      (OpResult.ok false, 1) ∧
    (upload_file_with_retry
        (fun _ => OpResult.exc (PyExc.clientError "RequestTimeout"))).2 ≠ 4 := by
  constructor
  · rfl
  · decide

/-! ## Claims about the transfer planner -/

theorem le_ceilDiv_mib (a : Nat) : a ≤ ceilDiv a (1024 * 1024) * (1024 * 1024) := by
  have h1 := Nat.div_add_mod (a + 1024 * 1024 - 1) (1024 * 1024)
  have h2 : (a + 1024 * 1024 - 1) % (1024 * 1024) < 1024 * 1024 :=
    Nat.mod_lt _ (by norm_num)
  unfold ceilDiv
  omega

theorem ceilDiv_mib_le (a : Nat) (h : a ≤ 100 * 1024 * 1024) :
    ceilDiv a (1024 * 1024) * (1024 * 1024) ≤ 100 * 1024 * 1024 := by
  have h1 := Nat.div_add_mod (a + 1024 * 1024 - 1) (1024 * 1024)
  have h2 : (a + 1024 * 1024 - 1) % (1024 * 1024) < 1024 * 1024 :=
    Nat.mod_lt _ (by norm_num)
  unfold ceilDiv
  omega

/-- C5: for every size strictly above the 100 MiB threshold the planned
chunk size is `ceil(s / 10)` clamped to `[10 MiB, 100 MiB]` and rounded up
to the next 1 MiB multiple; consequently it is a 1 MiB multiple, lies in
`[10 MiB, 100 MiB]`, and yields at least one part. -/
theorem multipart_chunk_properties (s : Nat) (h : MULTIPART_THRESHOLD < s) :
    (get_multipart_config (some s)).multipart_chunksize =
      ceilDiv (max (min (ceilDiv s 10) (100 * 1024 * 1024)) MULTIPART_CHUNKSIZE)
        (1024 * 1024) * (1024 * 1024) ∧
    (1024 * 1024) ∣ (get_multipart_config (some s)).multipart_chunksize ∧
    10 * 1024 * 1024 ≤ (get_multipart_config (some s)).multipart_chunksize ∧
    (get_multipart_config (some s)).multipart_chunksize ≤ 100 * 1024 * 1024 ∧
    1 ≤ ceilDiv s ((get_multipart_config (some s)).multipart_chunksize) := by
  have hs0 : s ≠ 0 := by
    unfold MULTIPART_THRESHOLD at h
    omega
  have hcfg : (get_multipart_config (some s)).multipart_chunksize =
      ceilDiv (max (min (ceilDiv s 10) (100 * 1024 * 1024)) MULTIPART_CHUNKSIZE)
        (1024 * 1024) * (1024 * 1024) := by
    simp only [get_multipart_config]
    rw [if_pos ⟨hs0, h⟩]
  have hB_lo : 10 * 1024 * 1024 ≤
      max (min (ceilDiv s 10) (100 * 1024 * 1024)) MULTIPART_CHUNKSIZE := by
    unfold MULTIPART_CHUNKSIZE
    omega
  have hB_hi : max (min (ceilDiv s 10) (100 * 1024 * 1024)) MULTIPART_CHUNKSIZE ≤
      100 * 1024 * 1024 := by
    apply max_le
    · exact min_le_right _ _
    · unfold MULTIPART_CHUNKSIZE
      norm_num
  have hc_lo : 10 * 1024 * 1024 ≤ (get_multipart_config (some s)).multipart_chunksize := by
    rw [hcfg]
    exact le_trans hB_lo (le_ceilDiv_mib _)
  have hc_hi : (get_multipart_config (some s)).multipart_chunksize ≤ 100 * 1024 * 1024 := by
    rw [hcfg]
    exact ceilDiv_mib_le _ hB_hi
  refine ⟨hcfg, ?_, hc_lo, hc_hi, ?_⟩
  · rw [hcfg]
    exact dvd_mul_left _ _
  · rw [hcfg]
    have hc_pos : 0 <
        ceilDiv (max (min (ceilDiv s 10) (100 * 1024 * 1024)) MULTIPART_CHUNKSIZE)
          (1024 * 1024) * (1024 * 1024) := by
      have hle := le_trans hB_lo
        (le_ceilDiv_mib
          (max (min (ceilDiv s 10) (100 * 1024 * 1024)) MULTIPART_CHUNKSIZE))
      omega
    generalize hX :
      ceilDiv (max (min (ceilDiv s 10) (100 * 1024 * 1024)) MULTIPART_CHUNKSIZE)
        (1024 * 1024) * (1024 * 1024) = X at hc_pos ⊢
    have hs1 : 1 ≤ s := Nat.one_le_iff_ne_zero.mpr hs0
    unfold ceilDiv
    rw [Nat.le_div_iff_mul_le hc_pos]
    omega

/-- C5 witness: a 250 MiB file gets a 25 MiB chunk size — a 1 MiB
multiple — and exactly 10 parts. -/
theorem multipart_chunk_properties_witness :
    MULTIPART_THRESHOLD < 250 * 1024 * 1024 ∧
    (get_multipart_config (some (250 * 1024 * 1024))).multipart_chunksize =
      25 * 1024 * 1024 ∧
    ceilDiv (250 * 1024 * 1024) (25 * 1024 * 1024) = 10 ∧
    (1024 * 1024) ∣ (get_multipart_config (some (250 * 1024 * 1024))).multipart_chunksize :=
  ⟨by decide, by decide, by decide,
    (multipart_chunk_properties (250 * 1024 * 1024) (by decide)).2.1⟩

/-- C7: for every known size at or below the 100 MiB threshold, and for an
unknown size, the plan keeps the single-shot defaults (threshold 100 MiB,
chunk size 10 MiB, concurrency 10) and multipart is not engaged. -/
theorem single_shot_below_threshold (s : Nat) (h : s ≤ MULTIPART_THRESHOLD) :
    get_multipart_config (some s) = get_multipart_config none ∧
    get_multipart_config none =
      { multipart_threshold := 100 * 1024 * 1024,
        multipart_chunksize := 10 * 1024 * 1024,
        max_concurrency := 10,
        use_threads := true } ∧
    use_multipart (some s) = false ∧
    use_multipart none = false := by
  have hneg : ¬ (s ≠ 0 ∧ MULTIPART_THRESHOLD < s) := by
    intro hc
    exact absurd h (not_le.mpr hc.2)
  refine ⟨?_, rfl, ?_, rfl⟩
  · simp only [get_multipart_config]
    rw [if_neg hneg]
  · simp only [use_multipart]
    have hth : (get_multipart_config (some s)).multipart_threshold =
        MULTIPART_THRESHOLD := by
      simp only [get_multipart_config]
      rw [if_neg hneg]
    rw [hth]
    exact decide_eq_false (not_lt.mpr h)

/-- C7 witness: a 1000-byte file keeps the default single-shot plan. -/
theorem single_shot_below_threshold_witness :
    get_multipart_config (some 1000) = get_multipart_config none ∧
    get_multipart_config none =
      { multipart_threshold := 100 * 1024 * 1024,
        multipart_chunksize := 10 * 1024 * 1024,
        max_concurrency := 10,
        use_threads := true } ∧
    use_multipart (some 1000) = false ∧
    use_multipart none = false :=
  single_shot_below_threshold 1000 (by decide)

/-! ## Claims about the metadata index and the tender layer -/

/-- C1 (corrected), counterexample: on an empty bucket the document created
by `get_bucket_info` carries no `groups`-shaped empty mapping — its group
collection is the key `"tender_id"` holding an empty JSON *list*, and an
empty list is not an empty mapping. -/
theorem index_shape_counterexample :
    ((get_bucket_info "b" { bucket := [], localFs := [], now := 0 }).map
        (fun p => (Json.get p.1 "tender_id", Json.get p.1 "groups"))) =
      some (some (Json.arr []), none) ∧
    Json.arr [] ≠ Json.obj [] := by
  constructor
  · rfl
  · intro h
    exact Json.noConfusion h

/-- C1 (amended): when `bucket_metadata.json` is absent, `get_bucket_info`
constructs `{bucket, updated_at, tender_id: empty list}`, persists it at
that key, and returns it; when the key is present and holds a JSON
document, it downloads, parses and returns that document. -/
theorem get_bucket_info_creates_or_loads (b : String) (st : StorageState) :
    (assocLookup st.bucket "bucket_metadata.json" = none →
      get_bucket_info b st =
        some (emptyIndex b st.now,
          { st with
            localFs := assocSet st.localFs "bucket_metadata.json"
              (.jsonC (emptyIndex b st.now)),
            bucket := assocSet st.bucket "bucket_metadata.json"
              (.jsonC (emptyIndex b st.now)) }) ∧
      assocLookup (assocSet st.bucket "bucket_metadata.json"
          (.jsonC (emptyIndex b st.now))) "bucket_metadata.json" =
        some (.jsonC (emptyIndex b st.now))) ∧
    (∀ j, assocLookup st.bucket "bucket_metadata.json" = some (.jsonC j) →
      get_bucket_info b st =
        some (j, { st with
          localFs := assocSet st.localFs "bucket_metadata.json" (.jsonC j) })) := by
  constructor
  · intro habs
    exact ⟨get_bucket_info_absent b st habs, assocLookup_set_self _ _ _⟩
  · intro j hpres
    exact get_bucket_info_present b st j hpres

/-- C1 witness: both branches at concrete states — an empty bucket gets the
fresh index created and persisted; a bucket already holding a stored
document gets that document back. -/
theorem get_bucket_info_creates_or_loads_witness :
    (get_bucket_info "b" { bucket := [], localFs := [], now := 0 } =
      some (emptyIndex "b" 0,
        { bucket := assocSet [] "bucket_metadata.json" (Content.jsonC (emptyIndex "b" 0)),
          localFs := assocSet [] "bucket_metadata.json" (Content.jsonC (emptyIndex "b" 0)),
          now := 0 }) ∧
     assocLookup (assocSet [] "bucket_metadata.json" (Content.jsonC (emptyIndex "b" 0)))
       "bucket_metadata.json" = some (.jsonC (emptyIndex "b" 0))) ∧
    get_bucket_info "b"
        { bucket := [("bucket_metadata.json", Content.jsonC (Json.str "doc"))],
          localFs := [], now := 7 } =
      some (Json.str "doc",
        { bucket := [("bucket_metadata.json", Content.jsonC (Json.str "doc"))],
          localFs := assocSet [] "bucket_metadata.json" (Content.jsonC (Json.str "doc")),
          now := 7 }) :=
  ⟨(get_bucket_info_creates_or_loads "b" { bucket := [], localFs := [], now := 0 }).1 rfl,
   (get_bucket_info_creates_or_loads "b"
       { bucket := [("bucket_metadata.json", Content.jsonC (Json.str "doc"))],
         localFs := [], now := 7 }).2 (Json.str "doc") rfl⟩

/-- C2 (corrected), counterexample: `add_to_tender` on a group id absent
from the index raises `KeyError` — not a dedicated unknown-group error —
and the upload has already happened: the failing call's state holds the
uploaded object at `unknown-group/documents/a.pdf`. -/
theorem add_to_tender_uploads_then_fails_counterexample :
    (add_to_tender
        ⟨Json.obj [("bucket", Json.str "b"), ("updated_at", Json.num 0),
          ("tender_id", Json.obj [])]⟩
        { bucket := [], localFs := [("a.pdf", Content.bytes "A")], now := 0 }
        "unknown-group" ["a.pdf"]).2 = some PyErr.keyError ∧
    assocLookup
        (add_to_tender
          ⟨Json.obj [("bucket", Json.str "b"), ("updated_at", Json.num 0),
            ("tender_id", Json.obj [])]⟩
          { bucket := [], localFs := [("a.pdf", Content.bytes "A")], now := 0 }
          "unknown-group" ["a.pdf"]).1.2.bucket "unknown-group/documents/a.pdf" =
      some (Content.bytes "A") := by
  constructor
  · rfl
  · rfl

/-- C2 (amended): for every group id absent from the index mapping,
`add_to_tender` fails — with Python's `KeyError`, the code's realization of
the unknown-group failure — but only *after* performing all uploads: the
state at the failure is exactly the state produced by uploading every
source file to `tender_id/documents/<basename>`. -/
theorem add_to_tender_unknown_group (ts : TenderStorage) (st : StorageState)
    (tender_id : String) (paths : List String)
    (kvs tmap : List (String × Json))
    (hc : ts.cached = .obj kvs)
    (ht : assocLookup kvs "tender_id" = some (.obj tmap))
    (habs : assocLookup tmap tender_id = none) :
    add_to_tender ts st tender_id paths =
      ((ts, uploadAddDocs st tender_id paths), some PyErr.keyError) := by
  unfold add_to_tender
  rw [hc]
  simp [ht, habs]

/-- C2 witness: a concrete unknown-group call fails with `KeyError` after
its uploads. -/
theorem add_to_tender_unknown_group_witness :
    add_to_tender ⟨Json.obj [("tender_id", Json.obj [("t1", Json.obj [])])]⟩
        { bucket := [], localFs := [("x.pdf", Content.bytes "X")], now := 0 }
        "g2" ["x.pdf"] =
      ((⟨Json.obj [("tender_id", Json.obj [("t1", Json.obj [])])]⟩,
        uploadAddDocs
          { bucket := [], localFs := [("x.pdf", Content.bytes "X")], now := 0 }
          "g2" ["x.pdf"]),
       some PyErr.keyError) :=
  add_to_tender_unknown_group _ _ "g2" ["x.pdf"] _ _ rfl rfl rfl

/-- C8: saving an index document with `update_metadata` and then running
`get_bucket_info` afresh (a new client over the same bucket is just the
bucket name) returns exactly the saved document, hence in particular the
same group mapping. -/
theorem save_then_fresh_load_roundtrip (b : String) (st : StorageState)
    (metadata : Json) :
    (get_bucket_info b ((update_metadata st metadata).2)).map Prod.fst =
      some metadata ∧
    (get_bucket_info b ((update_metadata st metadata).2)).map
        (fun p => Json.get p.1 "tender_id") =
      some (Json.get metadata "tender_id") := by
  have h2 : (update_metadata st metadata).2 =
      { st with
        localFs := assocSet st.localFs "bucket_metadata.json" (.jsonC metadata),
        bucket := assocSet st.bucket "bucket_metadata.json" (.jsonC metadata) } := by
    rw [update_metadata_eq]
  rw [h2]
  rw [get_bucket_info_present b _ metadata (by simp [assocLookup_set_self])]
  constructor
  · rfl
  · rfl

/-- C10: every call to `update_metadata` writes the document to the local
file `bucket_metadata.json` (a relative path, hence the process's current
working directory), and every successful call to `get_bucket_info` leaves
the returned document in that same local file — creating or overwriting
it. -/
theorem metadata_ops_write_local_file (b : String) (st : StorageState)
    (metadata : Json) :
    assocLookup ((update_metadata st metadata).2).localFs "bucket_metadata.json" =
      some (.jsonC metadata) ∧
    (∀ j st', get_bucket_info b st = some (j, st') →
      assocLookup st'.localFs "bucket_metadata.json" = some (.jsonC j)) := by
  constructor
  · rw [update_metadata_eq]
    exact assocLookup_set_self _ _ _
  · intro j st' hget
    cases hb : assocLookup st.bucket "bucket_metadata.json" with
    | none =>
      rw [get_bucket_info_absent b st hb] at hget
      injection hget with hpair
      injection hpair with hj hst
      subst hj
      subst hst
      exact assocLookup_set_self _ _ _
    | some c =>
      cases c with
      | jsonC jj =>
        rw [get_bucket_info_present b st jj hb] at hget
        injection hget with hpair
        injection hpair with hj hst
        subst hj
        subst hst
        exact assocLookup_set_self _ _ _
      | bytes bb =>
        rw [get_bucket_info_bytes b st bb hb] at hget
        exact Option.noConfusion hget

/-- C10 witness: at concrete states both operations leave the document in
the local `bucket_metadata.json`. -/
theorem metadata_ops_write_local_file_witness :
    assocLookup ((update_metadata { bucket := [], localFs := [], now := 0 }
        (Json.obj [])).2).localFs "bucket_metadata.json" =
      some (Content.jsonC (Json.obj [])) ∧
    assocLookup
        ({ bucket := assocSet [] "bucket_metadata.json" (Content.jsonC (emptyIndex "b" 0)),
           localFs := assocSet [] "bucket_metadata.json" (Content.jsonC (emptyIndex "b" 0)),
           now := 0 } : StorageState).localFs "bucket_metadata.json" =
      some (Content.jsonC (emptyIndex "b" 0)) :=
  ⟨(metadata_ops_write_local_file "b" { bucket := [], localFs := [], now := 0 }
      (Json.obj [])).1,
   (metadata_ops_write_local_file "b" { bucket := [], localFs := [], now := 0 }
      (Json.obj [])).2 (emptyIndex "b" 0)
     { bucket := assocSet [] "bucket_metadata.json" (Content.jsonC (emptyIndex "b" 0)),
       localFs := assocSet [] "bucket_metadata.json" (Content.jsonC (emptyIndex "b" 0)),
       now := 0 } rfl⟩

/-- C9: re-registering a group id already present in the cached index is a
silent no-op for the index — `update_metadata` is never invoked, the cached
copy is unchanged, no error is raised, and the bucket after the call is
exactly the bucket produced by re-uploading the source files alone, with
the stored index object untouched. -/
theorem upload_existing_tender_is_index_noop (b : String) (ts : TenderStorage)
    (st : StorageState) (data : Json) (paths : List String) (publication : Bool)
    (kvs tmap : List (String × Json)) (idStr : String) (j : Json)
    (hc : ts.cached = .obj kvs)
    (ht : assocLookup kvs "tender_id" = some (.obj tmap))
    (hid : data.get "id" = some (.str idStr))
    (hmem : (assocLookup tmap idStr).isSome = true)
    (hmeta : assocLookup st.bucket "bucket_metadata.json" = some (.jsonC j)) :
    upload_new_tender b ts st data paths publication =
      ((ts, { uploadTenderDocs st idStr paths with
              localFs := assocSet (uploadTenderDocs st idStr paths).localFs
                "bucket_metadata.json" (.jsonC j) }), none) ∧
    ((upload_new_tender b ts st data paths publication).1.2).bucket =
      (uploadTenderDocs st idStr paths).bucket ∧
    assocLookup ((upload_new_tender b ts st data paths publication).1.2).bucket
        "bucket_metadata.json" = assocLookup st.bucket "bucket_metadata.json" := by
  have hkey : assocLookup (uploadTenderDocs st idStr paths).bucket
      "bucket_metadata.json" = some (.jsonC j) := by
    rw [uploadTenderDocs_meta]
    exact hmeta
  have hget := get_bucket_info_present b (uploadTenderDocs st idStr paths) j hkey
  have hmain : upload_new_tender b ts st data paths publication =
      ((ts, { uploadTenderDocs st idStr paths with
              localFs := assocSet (uploadTenderDocs st idStr paths).localFs
                "bucket_metadata.json" (.jsonC j) }), none) := by
    unfold upload_new_tender
    rw [hid]
    simp only [pyStr]
    rw [hget, hc]
    simp [ht, Json.member, hmem]
  refine ⟨hmain, ?_, ?_⟩
  · rw [hmain]
  · rw [hmain]
    simp only
    rw [uploadTenderDocs_meta]

/-- C9 witness: a concrete re-registration of `"t1"` leaves the stored
index untouched while the file is re-uploaded. -/
theorem upload_existing_tender_is_index_noop_witness :
    upload_new_tender "b"
        ⟨Json.obj [("tender_id", Json.obj [("t1", Json.obj [])])]⟩
        { bucket := [("bucket_metadata.json",
            Content.jsonC (Json.obj [("tender_id", Json.obj [("t1", Json.obj [])])]))],
          localFs := [("a.pdf", Content.bytes "A")], now := 5 }
        (Json.obj [("id", Json.str "t1")]) ["a.pdf"] true =
      ((⟨Json.obj [("tender_id", Json.obj [("t1", Json.obj [])])]⟩,
        { uploadTenderDocs
            { bucket := [("bucket_metadata.json",
                Content.jsonC (Json.obj [("tender_id", Json.obj [("t1", Json.obj [])])]))],
              localFs := [("a.pdf", Content.bytes "A")], now := 5 } "t1" ["a.pdf"] with
          localFs := assocSet
            (uploadTenderDocs
              { bucket := [("bucket_metadata.json",
                  Content.jsonC (Json.obj [("tender_id", Json.obj [("t1", Json.obj [])])]))],
                localFs := [("a.pdf", Content.bytes "A")], now := 5 } "t1" ["a.pdf"]).localFs
            "bucket_metadata.json"
            (.jsonC (Json.obj [("tender_id", Json.obj [("t1", Json.obj [])])])) }),
       none) :=
  (upload_existing_tender_is_index_noop "b"
    ⟨Json.obj [("tender_id", Json.obj [("t1", Json.obj [])])]⟩
    { bucket := [("bucket_metadata.json",
        Content.jsonC (Json.obj [("tender_id", Json.obj [("t1", Json.obj [])])]))],
      localFs := [("a.pdf", Content.bytes "A")], now := 5 }
    (Json.obj [("id", Json.str "t1")]) ["a.pdf"] true
    [("tender_id", Json.obj [("t1", Json.obj [])])] [("t1", Json.obj [])]
    "t1" (Json.obj [("tender_id", Json.obj [("t1", Json.obj [])])])
    rfl rfl rfl rfl rfl).1

end TenderScraper
